import Mathlib

/-!
Shallow embedding of the quiz-session state machine of
`src/showcase-site/src/submission-widgets/pdf2Qn.jsx` (the full widget; the
file `src/unnamed/part_000` is an earlier cut of the same component with the
same `handleAnswerSelect` / `generateQuestions` logic).

The React component keeps its state in `useState` hooks; we collect those
hooks into one `State` structure and embed each event handler as a pure
`State → State` function.  External effects are made explicit parameters:

* the generative-AI call inside `generateQuestions` is embedded as a
  `GenOutcome` argument (network/extraction failure, JSON-parse failure, or a
  successfully parsed value);
* the explanation text returned by `generateExplanation` is a `String`
  argument of `handleAnswerSelect` (the JS `catch` already turns a failed
  call into the placeholder string, so the result is always some string);
* `Date.now()` and `new Date().toLocaleDateString()` inside `handleSaveQuiz`
  are `Nat` / `String` arguments;
* `localStorage` is embedded by `persistPdfList`, which returns the value the
  persistence `useEffect` leaves in the store (`none` = key removed).

JS objects used as index→string maps (`selectedAnswers`, `explanations`) are
embedded as association lists `List (Nat × String)`; `{...prev, [k]: v}` with
`k` not yet present is cons at the front, looked up first-match.
-/

/-- A parsed question object from the generator's JSON response.  The code
parses the response with `JSON.parse` and installs the result without any
structural validation, so a field may be absent (`undefined` in JS); we keep
`question` and `correctAnswer` as `Option String` to represent that.  An
absent `options` array would crash rendering, not the session logic the
claims are about, so `options` stays a plain list. -/
structure Question where
  question : Option String
  options : List String
  correctAnswer : Option String
deriving DecidableEq, Repr

/-- The browser `File` object: name, declared MIME type, and its bytes
(`arrayBuffer`). -/
structure FileData where
  name : String
  ftype : String
  data : List Nat
deriving DecidableEq, Repr

/-- One element of `pdfList`, as built by `handleSaveQuiz`. -/
structure SavedRecord where
  id : Nat
  name : String
  file : FileData
  fileData : List Nat
  fileName : String
  date : String
  questions : List Question
  score : Nat
  totalQuestions : Nat
deriving DecidableEq, Repr

/-- The `currentPage` state: 'upload', 'list' or 'explanation'. -/
inductive Page where
  | upload
  | list
  | explanation
deriving DecidableEq, Repr

/-- The `useState` hooks of `PdfQuestionWidget`, collected. -/
structure State where
  file : Option FileData
  questions : List Question
  loading : Bool
  error : Option String
  selectedAnswers : List (Nat × String)
  score : Nat
  isDragging : Bool
  showExplanation : Bool
  explanations : List (Nat × String)
  currentSlide : Nat
  currentPage : Page
  pdfList : List SavedRecord
deriving DecidableEq, Repr

/-- First-match lookup in an index→string association list, i.e. JS property
access `obj[i]` on the object built by repeated `{...prev, [i]: v}`. -/
def lookupIdx (l : List (Nat × String)) (i : Nat) : Option String :=
  match l with
  | [] => none
  | (k, v) :: rest => if k = i then some v else lookupIdx rest i

/-- The initial hook values; the mount `useEffect` then fills `pdfList` from
`localStorage` (absent/corrupt storage leaves it `[]`), so the post-mount
state is `initState saved`. -/
def initState (saved : List SavedRecord) : State where
  file := none
  questions := []
  loading := false
  error := none
  selectedAnswers := []
  score := 0
  isDragging := false
  showExplanation := false
  explanations := []
  currentSlide := 0
  currentPage := .upload
  pdfList := saved

/-- `answer === questions[questionIndex].correctAnswer` (line 115).  An
absent `correctAnswer` field compares unequal to every string. -/
def isCorrectAnswer (qs : List Question) (i : Nat) (a : String) : Bool :=
  match qs.get? i with
  | some q => q.correctAnswer == some a
  | none => false

/-- `handleAnswerSelect` (lines 107-134): no-op when the index already has a
recorded answer; otherwise records the answer, bumps the score when correct,
stores the fetched explanation when incorrect, and advances `currentSlide`
unless this was the last question.  `expl` is the string returned by
`generateExplanation`. -/
def handleAnswerSelect (s : State) (i : Nat) (answer : String) (expl : String) : State :=
  if (lookupIdx s.selectedAnswers i).isSome then s
  else
    let isCorrect := isCorrectAnswer s.questions i answer
    { s with
      selectedAnswers := (i, answer) :: s.selectedAnswers
      score := if isCorrect then s.score + 1 else s.score
      explanations := if isCorrect then s.explanations else (i, expl) :: s.explanations
      currentSlide := if i < s.questions.length - 1 then i + 1 else s.currentSlide }

/-- `resetQuiz` (lines 136-141). -/
def resetQuiz (s : State) : State :=
  { s with selectedAnswers := [], score := 0, explanations := [], showExplanation := false }

/-- Outcome of the extraction/generation pipeline inside `generateQuestions`:
either the outer `try` throws (PDF extraction or the model call failed), or
`JSON.parse` throws on the cleaned response text, or parsing succeeds and
yields a value that is installed verbatim. -/
inductive GenOutcome where
  | genFailure
  | parseFailure
  | parsed (qs : List Question)
deriving DecidableEq, Repr

/-- `generateQuestions` (lines 158-193): early error when no file is chosen;
otherwise clears error and quiz state (`resetQuiz`), then installs the parsed
response, or sets the matching error message on failure.  `loading` is true
only while the call is in flight (`finally` clears it), so the settled state
has `loading := false`. -/
def generateQuestions (s : State) (o : GenOutcome) : State :=
  match s.file with
  | none => { s with error := some "Please upload a PDF file first" }
  | some _ =>
    let s1 := { s with error := none, selectedAnswers := [], score := 0,
                       explanations := [], showExplanation := false }
    match o with
    | .genFailure => { s1 with error := some "Failed to generate questions. Please try again.", loading := false }
    | .parseFailure => { s1 with error := some "Failed to parse questions. Please try again.", loading := false }
    | .parsed qs => { s1 with questions := qs, loading := false }

/-- `handleFileChange` (lines 75-84); `f` is `event.target.files[0]`, absent
when the dialog was cancelled. -/
def handleFileChange (s : State) (f : Option FileData) : State :=
  match f with
  | some fd =>
    if fd.ftype = "application/pdf" then { s with file := some fd, error := none }
    else { s with error := some "Please select a valid PDF file", file := none }
  | none => { s with error := some "Please select a valid PDF file", file := none }

/-- `handleDrop` (lines 60-73); `f` is `e.dataTransfer.files[0]`. -/
def handleDrop (s : State) (f : Option FileData) : State :=
  let s0 := { s with isDragging := false }
  match f with
  | some fd =>
    if fd.ftype = "application/pdf" then { s0 with file := some fd, error := none }
    else { s0 with error := some "Please drop a valid PDF file", file := none }
  | none => { s0 with error := some "Please drop a valid PDF file", file := none }

/-- The inline 'Upload New PDF' handler (lines 658-671): a PDF starts a fresh
session around the new file; anything else is rejected like
`handleFileChange`. -/
def uploadNewPdf (s : State) (f : Option FileData) : State :=
  match f with
  | some fd =>
    if fd.ftype = "application/pdf" then
      { s with file := some fd, questions := [], selectedAnswers := [], score := 0,
               error := none, explanations := [], showExplanation := false }
    else { s with error := some "Please select a valid PDF file", file := none }
  | none => { s with error := some "Please select a valid PDF file", file := none }

/-- The record `handleSaveQuiz` appends to `pdfList` (lines 246-256), for the
currently selected file `f`; `now` is `Date.now()`, `date` the formatted
save date. -/
def mkRecord (s : State) (f : FileData) (now : Nat) (date : String) : SavedRecord where
  id := now
  name := f.name
  file := f
  fileData := f.data
  fileName := f.name
  date := date
  questions := s.questions
  score := s.score
  totalQuestions := s.questions.length

/-- `handleSaveQuiz` (lines 240-263): guarded on a selected file and a
non-empty question set; appends the new record and switches to the list page.
(The `catch` branch for a failing `arrayBuffer` read only sets an error; the
success path embedded here is the one the claims concern.) -/
def handleSaveQuiz (s : State) (now : Nat) (date : String) : State :=
  match s.file with
  | some f =>
    if s.questions.length > 0 then
      { s with pdfList := s.pdfList ++ [mkRecord s f now date], currentPage := .list }
    else s
  | none => s

/-- `handlePdfSelect` (lines 265-281): rebuilds a `File` from the record's
stored bytes, installs the record's questions, and resets answers, score,
error and explanations. -/
def handlePdfSelect (s : State) (r : SavedRecord) : State :=
  { s with
    file := some ⟨r.fileName, "application/pdf", r.fileData⟩
    questions := r.questions
    selectedAnswers := []
    score := 0
    error := none
    explanations := []
    showExplanation := false
    currentPage := .upload }

/-- `handleDeletePdf` (lines 283-285): `pdfList.filter(item => item.id !== pdfId)`. -/
def handleDeletePdf (s : State) (pdfId : Nat) : State :=
  { s with pdfList := s.pdfList.filter (fun item => item.id != pdfId) }

/-- `clearAll` (lines 287-296). -/
def clearAll (s : State) : State :=
  { s with file := none, questions := [], selectedAnswers := [], score := 0,
           error := none, explanations := [], showExplanation := false, pdfList := [] }

/-- The persistence `useEffect` (lines 317-333): whenever `pdfList` changes it
rewrites the whole collection under the `savedQuizzes` key, re-deriving each
record's `fileName` from its `File`, and removes the key when the list is
empty.  The returned value is what the store holds afterwards (`none` = key
absent). -/
def persistPdfList (l : List SavedRecord) : Option (List SavedRecord) :=
  if l.length > 0 then some (l.map fun r => { r with fileName := r.file.name })
  else none

/-!  ## Reachability

Every state-mutating event handler of the component is a step.  The answer
step carries `i < s.questions.length` because the only call sites of
`handleAnswerSelect` are the option `onClick`s created by
`questions.map((q, index) => ...)`, whose `index` ranges over the current
question list.  The load step carries `r ∈ s.pdfList` because
`handlePdfSelect` is only invoked from `pdfList.map((pdfItem) => ...)`.
`pageNav` covers the header buttons that only change `currentPage`, and
`slideNav` the carousel buttons / `afterChange` that only change
`currentSlide`; `dragEnter` / `dragLeave` only toggle `isDragging`. -/
inductive Reachable : State → Prop where
  | init (saved : List SavedRecord) : Reachable (initState saved)
  | fileChange (s : State) (f : Option FileData) :
      Reachable s → Reachable (handleFileChange s f)
  | drop (s : State) (f : Option FileData) :
      Reachable s → Reachable (handleDrop s f)
  | answer (s : State) (i : Nat) (a e : String) :
      Reachable s → i < s.questions.length → Reachable (handleAnswerSelect s i a e)
  | reset (s : State) : Reachable s → Reachable (resetQuiz s)
  | generate (s : State) (o : GenOutcome) :
      Reachable s → Reachable (generateQuestions s o)
  | save (s : State) (now : Nat) (date : String) :
      Reachable s → Reachable (handleSaveQuiz s now date)
  | load (s : State) (r : SavedRecord) :
      Reachable s → r ∈ s.pdfList → Reachable (handlePdfSelect s r)
  | deleteRec (s : State) (i : Nat) :
      Reachable s → Reachable (handleDeletePdf s i)
  | clear (s : State) : Reachable s → Reachable (clearAll s)
  | uploadNew (s : State) (f : Option FileData) :
      Reachable s → Reachable (uploadNewPdf s f)
  | pageNav (s : State) (p : Page) :
      Reachable s → Reachable { s with currentPage := p }
  | slideNav (s : State) (n : Nat) :
      Reachable s → Reachable { s with currentSlide := n }
  | dragEnter (s : State) : Reachable s → Reachable { s with isDragging := true }
  | dragLeave (s : State) : Reachable s → Reachable { s with isDragging := false }

/-- Answers, restricted to the ones matching the question's `correctAnswer` --
the quantity `score` tracks. -/
def countCorrect (qs : List Question) (ans : List (Nat × String)) : Nat :=
  (ans.filter fun p => isCorrectAnswer qs p.1 p.2).length

/-- The session invariant maintained by every handler: answer keys are
distinct and in range, the score is exactly the number of correct recorded
answers, and every explanation belongs to an incorrectly answered index. -/
def SessionInv (s : State) : Prop :=
  (s.selectedAnswers.map Prod.fst).Nodup ∧
  (∀ p ∈ s.selectedAnswers, p.1 < s.questions.length) ∧
  s.score = countCorrect s.questions s.selectedAnswers ∧
  ∀ p ∈ s.explanations,
    ∃ a, lookupIdx s.selectedAnswers p.1 = some a ∧
      isCorrectAnswer s.questions p.1 a = false

lemma lookupIdx_eq_none_iff (l : List (Nat × String)) (i : Nat) :
    lookupIdx l i = none ↔ i ∉ l.map Prod.fst := by
  induction l with
  | nil => simp [lookupIdx]
  | cons p rest ih =>
    obtain ⟨k, v⟩ := p
    by_cases hk : k = i <;> simp [lookupIdx, hk, ih, Ne.symm, eq_comm]

lemma lookupIdx_mem (l : List (Nat × String)) (i : Nat) (a : String)
    (h : lookupIdx l i = some a) : (i, a) ∈ l := by
  induction l with
  | nil => simp [lookupIdx] at h
  | cons p rest ih =>
    obtain ⟨k, v⟩ := p
    by_cases hk : k = i
    · simp [lookupIdx, hk] at h
      simp [hk, h]
    · simp [lookupIdx, hk] at h
      exact List.mem_cons_of_mem _ (ih h)

lemma invariant_empty_answers (s : State)
    (h1 : s.selectedAnswers = []) (h2 : s.score = 0) (h3 : s.explanations = []) :
    SessionInv s := by
  refine ⟨?_, ?_, ?_, ?_⟩ <;> simp [h1, h2, h3, countCorrect]

/-- Every reachable state satisfies the session invariant. -/
theorem reachable_inv (s : State) (h : Reachable s) : SessionInv s := by
  induction h with
  | init saved => exact invariant_empty_answers _ rfl rfl rfl
  | fileChange s f _ ih =>
    obtain ⟨h1, h2, h3, h4⟩ := ih
    cases f with
    | none => exact ⟨h1, h2, h3, h4⟩
    | some fd =>
      by_cases hp : fd.ftype = "application/pdf" <;>
        simp only [handleFileChange, hp, if_pos, if_neg, not_false_iff] <;>
        exact ⟨h1, h2, h3, h4⟩
  | drop s f _ ih =>
    obtain ⟨h1, h2, h3, h4⟩ := ih
    cases f with
    | none => exact ⟨h1, h2, h3, h4⟩
    | some fd =>
      by_cases hp : fd.ftype = "application/pdf" <;>
        simp only [handleDrop, hp, if_pos, if_neg, not_false_iff] <;>
        exact ⟨h1, h2, h3, h4⟩
  | answer s i a e _ hi ih =>
    obtain ⟨h1, h2, h3, h4⟩ := ih
    unfold handleAnswerSelect
    by_cases hsel : (lookupIdx s.selectedAnswers i).isSome
    · simpa [hsel] using ⟨h1, h2, h3, h4⟩
    · have hnone : lookupIdx s.selectedAnswers i = none := by
        cases hlk : lookupIdx s.selectedAnswers i with
        | none => rfl
        | some v => simp [hlk] at hsel
      have hnotmem : i ∉ s.selectedAnswers.map Prod.fst :=
        (lookupIdx_eq_none_iff _ _).mp hnone
      simp only [hsel, if_neg, not_false_iff, Bool.not_eq_true]
      refine ⟨?_, ?_, ?_, ?_⟩
      · refine List.nodup_cons.mpr ⟨hnotmem, h1⟩
      · intro p hp
        rcases List.mem_cons.mp hp with hp | hp
        · simp [hp, hi]
        · exact h2 p hp
      · by_cases hc : isCorrectAnswer s.questions i a = true <;>
          simp [countCorrect, hc, h3, List.filter_cons]
      · intro p hp
        by_cases hc : isCorrectAnswer s.questions i a = true
        · simp only [hc, if_pos] at hp
          obtain ⟨b, hb1, hb2⟩ := h4 p hp
          refine ⟨b, ?_, hb2⟩
          have hne : ¬ i = p.1 := by
            intro hip
            rw [← hip, hnone] at hb1
            exact Option.noConfusion hb1
          simpa [lookupIdx, hne] using hb1
        · simp only [hc, if_neg, not_false_iff] at hp
          rcases List.mem_cons.mp hp with hp | hp
          · refine ⟨a, ?_, ?_⟩
            · simp [hp, lookupIdx]
            · simpa [hp] using hc
          · obtain ⟨b, hb1, hb2⟩ := h4 p hp
            refine ⟨b, ?_, hb2⟩
            have hne : ¬ i = p.1 := by
              intro hip
              rw [← hip, hnone] at hb1
              exact Option.noConfusion hb1
            simpa [lookupIdx, hne] using hb1
  | reset s _ _ => exact invariant_empty_answers _ rfl rfl rfl
  | generate s o _ ih =>
    cases hf : s.file with
    | none => simpa [generateQuestions, hf] using ih
    | some fd =>
      cases o with
      | genFailure => exact invariant_empty_answers _ (by simp [generateQuestions, hf]) (by simp [generateQuestions, hf]) (by simp [generateQuestions, hf])
      | parseFailure => exact invariant_empty_answers _ (by simp [generateQuestions, hf]) (by simp [generateQuestions, hf]) (by simp [generateQuestions, hf])
      | parsed qs => exact invariant_empty_answers _ (by simp [generateQuestions, hf]) (by simp [generateQuestions, hf]) (by simp [generateQuestions, hf])
  | save s now date _ ih =>
    cases hf : s.file with
    | none => simpa [handleSaveQuiz, hf] using ih
    | some f =>
      by_cases hq : s.questions.length > 0 <;>
        simp only [handleSaveQuiz, hf, hq, if_pos, if_neg, not_false_iff] <;>
        exact ih
  | load s r _ _ _ => exact invariant_empty_answers _ rfl rfl rfl
  | deleteRec s i _ ih => exact ih
  | clear s _ _ => exact invariant_empty_answers _ rfl rfl rfl
  | uploadNew s f _ ih =>
    cases f with
    | none => exact ih
    | some fd =>
      by_cases hp : fd.ftype = "application/pdf"
      · exact invariant_empty_answers _ (by simp [uploadNewPdf, hp]) (by simp [uploadNewPdf, hp]) (by simp [uploadNewPdf, hp])
      · simpa [uploadNewPdf, hp] using ih
  | pageNav s p _ ih => exact ih
  | slideNav s n _ ih => exact ih
  | dragEnter s _ ih => exact ih
  | dragLeave s _ ih => exact ih

lemma nodup_lt_length_le (l : List Nat) (n : Nat) (hn : l.Nodup) (hb : ∀ x ∈ l, x < n) :
    l.length ≤ n := by
  have hsub : l.toFinset ⊆ Finset.range n := by
    intro x hx
    exact Finset.mem_range.mpr (hb x (List.mem_toFinset.mp hx))
  have := Finset.card_le_card hsub
  rwa [List.toFinset_card_of_nodup hn, Finset.card_range] at this

/-! ## Sample data for concrete evaluations -/

/-- The one-question session of spec §8.3, with JS field names
(`correctAnswer` is the spec's `correctOption`). -/
def q1 : Question := ⟨some "2+2?", ["3", "4", "5", "6"], some "4"⟩

def pdfFile : FileData := ⟨"doc.pdf", "application/pdf", [1, 2, 3]⟩

def txtFile : FileData := ⟨"notes.txt", "text/plain", [7]⟩

/-- A Ready session over `[q1]` with nothing answered yet. -/
def readyState : State := { initState [] with file := some pdfFile, questions := [q1] }

/-- `readyState` after the incorrect answer "5" was recorded for index 0. -/
def answeredState : State :=
  { readyState with selectedAnswers := [(0, "5")], explanations := [(0, "expl0")] }

/-- `readyState` after the correct answer "4" was recorded for index 0. -/
def sPrior : State := { readyState with selectedAnswers := [(0, "4")], score := 1 }

/-! ## Claims -/

/-- C1: selecting an answer for an index that already has a recorded answer
is a silently-ignored no-op — `handleAnswerSelect` returns the state
unchanged, whatever answer text is supplied, so `selectedAnswers`, `score`
and `explanations` are untouched. -/
theorem selectAnswer_writeOnce (s : State) (i : Nat) (a0 ans expl : String)
    (h : lookupIdx s.selectedAnswers i = some a0) :
    handleAnswerSelect s i ans expl = s := by
  simp [handleAnswerSelect, h]

theorem selectAnswer_writeOnce_witness :
    lookupIdx answeredState.selectedAnswers 0 = some "5" ∧
    handleAnswerSelect answeredState 0 "4" "e" = answeredState :=
  ⟨by decide, selectAnswer_writeOnce answeredState 0 "5" "4" "e" (by decide)⟩

/-- C2: in every reachable session the number of recorded answers is at most
the number of questions and the score is at most the number of recorded
answers; and recording a further answer never decreases the score. -/
theorem session_count_bounds (s : State) (h : Reachable s) :
    s.selectedAnswers.length ≤ s.questions.length ∧
    s.score ≤ s.selectedAnswers.length ∧
    ∀ i a e, s.score ≤ (handleAnswerSelect s i a e).score := by
  obtain ⟨h1, h2, h3, -⟩ := reachable_inv s h
  refine ⟨?_, ?_, ?_⟩
  · have := nodup_lt_length_le (s.selectedAnswers.map Prod.fst) s.questions.length h1 ?_
    · simpa using this
    · intro x hx
      obtain ⟨p, hp, rfl⟩ := List.mem_map.mp hx
      exact h2 p hp
  · rw [h3]
    exact List.length_filter_le _ _
  · intro i a e
    unfold handleAnswerSelect
    by_cases hsel : (lookupIdx s.selectedAnswers i).isSome
    · simp [hsel]
    · by_cases hc : isCorrectAnswer s.questions i a = true <;> simp [hsel, hc]

theorem session_count_bounds_witness :
    (initState []).selectedAnswers.length ≤ (initState []).questions.length ∧
    (initState []).score ≤ (initState []).selectedAnswers.length ∧
    ∀ i a e, (initState []).score ≤ (handleAnswerSelect (initState []) i a e).score :=
  session_count_bounds (initState []) (Reachable.init [])

/-- C3: in every reachable session the score equals the number of recorded
answers matching the question's correct option; and on the one-question
session over `q1` (`correctAnswer = "4"`), selecting "4" yields score 1 while
selecting "5" yields score 0 and stores the fetched explanation under
index 0. -/
theorem score_counts_correct (s : State) (h : Reachable s) :
    s.score = countCorrect s.questions s.selectedAnswers ∧
    (∀ e, (handleAnswerSelect readyState 0 "4" e).score = 1) ∧
    (∀ e, (handleAnswerSelect readyState 0 "5" e).score = 0 ∧
      lookupIdx (handleAnswerSelect readyState 0 "5" e).explanations 0 = some e) := by
  obtain ⟨-, -, h3, -⟩ := reachable_inv s h
  refine ⟨h3, ?_, ?_⟩
  · intro e
    simp [handleAnswerSelect, readyState, initState, lookupIdx, isCorrectAnswer, q1]
  · intro e
    constructor <;>
      simp [handleAnswerSelect, readyState, initState, lookupIdx, isCorrectAnswer, q1]

theorem score_counts_correct_witness :
    (initState []).score = countCorrect (initState []).questions (initState []).selectedAnswers ∧
    (∀ e, (handleAnswerSelect readyState 0 "4" e).score = 1) ∧
    (∀ e, (handleAnswerSelect readyState 0 "5" e).score = 0 ∧
      lookupIdx (handleAnswerSelect readyState 0 "5" e).explanations 0 = some e) :=
  score_counts_correct (initState []) (Reachable.init [])

/-- C4 counterexample: from the session `sPrior` (one correctly answered
question, score 1), a generation run that fails clears the recorded answers
and the score — the prior session state is NOT left unmutated, because
`generateQuestions` calls `resetQuiz()` before the attempt (line 166). -/
theorem generate_failure_clears_answers :
    (generateQuestions sPrior .genFailure).score ≠ sPrior.score ∧
    (generateQuestions sPrior .genFailure).selectedAnswers ≠ sPrior.selectedAnswers := by
  decide

/-- C4 amended: a failed generation run (extraction/model failure or an
unparseable response) leaves the prior `questions` unchanged and surfaces an
error, but `selectedAnswers`, `score` and `explanations` are unconditionally
reset to empty/zero before the attempt, so they are not preserved. -/
theorem generate_failure_keeps_questions (s : State) (f : FileData) (o : GenOutcome)
    (hf : s.file = some f) (ho : o = .genFailure ∨ o = .parseFailure) :
    (generateQuestions s o).questions = s.questions ∧
    (generateQuestions s o).error.isSome ∧
    (generateQuestions s o).selectedAnswers = [] ∧
    (generateQuestions s o).score = 0 ∧
    (generateQuestions s o).explanations = [] ∧
    (generateQuestions s o).pdfList = s.pdfList := by
  rcases ho with rfl | rfl <;> simp [generateQuestions, hf]

theorem generate_failure_keeps_questions_witness :
    (generateQuestions sPrior .genFailure).questions = sPrior.questions ∧
    (generateQuestions sPrior .genFailure).error.isSome ∧
    (generateQuestions sPrior .genFailure).selectedAnswers = [] ∧
    (generateQuestions sPrior .genFailure).score = 0 ∧
    (generateQuestions sPrior .genFailure).explanations = [] ∧
    (generateQuestions sPrior .genFailure).pdfList = sPrior.pdfList :=
  generate_failure_keeps_questions sPrior pdfFile .genFailure (by decide) (Or.inl rfl)

/-- A structurally malformed generator question: valid JSON, but no
`correctAnswer` field and only one option. -/
def badQ : Question := ⟨some "q", ["a"], none⟩

/-- C5 counterexample: a generator response that parses as JSON but fails the
expected shape (`badQ` has no correct-option field and fewer than 2 options)
is NOT treated as a generation failure: starting from the Ready session
`sPrior`, it is installed as the question set, replacing the previously
displayed questions, with no error raised. -/
theorem malformed_response_installed :
    (generateQuestions sPrior (.parsed [badQ])).questions = [badQ] ∧
    (generateQuestions sPrior (.parsed [badQ])).questions ≠ sPrior.questions ∧
    (generateQuestions sPrior (.parsed [badQ])).error = none := by
  decide

/-- C5 amended: only a JSON-unparseable generator response is treated as a
generation failure (error message set, previously displayed questions kept);
any response that parses is installed verbatim as the question set with no
structural validation, whatever its shape. -/
theorem generation_validation_amended (s : State) (f : FileData) (qs : List Question)
    (hf : s.file = some f) :
    ((generateQuestions s .parseFailure).questions = s.questions ∧
     (generateQuestions s .parseFailure).error =
       some "Failed to parse questions. Please try again.") ∧
    ((generateQuestions s (.parsed qs)).questions = qs ∧
     (generateQuestions s (.parsed qs)).error = none) := by
  simp [generateQuestions, hf]

theorem generation_validation_amended_witness :
    ((generateQuestions sPrior .parseFailure).questions = sPrior.questions ∧
     (generateQuestions sPrior .parseFailure).error =
       some "Failed to parse questions. Please try again.") ∧
    ((generateQuestions sPrior (.parsed [badQ])).questions = [badQ] ∧
     (generateQuestions sPrior (.parsed [badQ])).error = none) :=
  generation_validation_amended sPrior pdfFile [badQ] (by decide)

/-- C8: in every reachable session, any index holding an explanation is a
recorded answer whose stored text differs from the question's correct option
— explanations exist only for incorrectly answered questions. -/
theorem explanations_only_incorrect (s : State) (h : Reachable s) (i : Nat) (e : String)
    (he : lookupIdx s.explanations i = some e) :
    ∃ a, lookupIdx s.selectedAnswers i = some a ∧
      isCorrectAnswer s.questions i a = false := by
  obtain ⟨-, -, -, h4⟩ := reachable_inv s h
  exact h4 (i, e) (lookupIdx_mem _ _ _ he)

theorem explanations_only_incorrect_witness :
    ∃ a,
      lookupIdx
        (handleAnswerSelect
          (generateQuestions (handleFileChange (initState []) (some pdfFile)) (.parsed [q1]))
          0 "5" "expl").selectedAnswers 0 = some a ∧
      isCorrectAnswer
        (handleAnswerSelect
          (generateQuestions (handleFileChange (initState []) (some pdfFile)) (.parsed [q1]))
          0 "5" "expl").questions 0 a = false :=
  explanations_only_incorrect _
    (Reachable.answer _ 0 "5" "expl"
      (Reachable.generate _ _ (Reachable.fileChange _ _ (Reachable.init [])))
      (by decide))
    0 "expl" (by decide)

/-- C6: saving a Ready session with a non-empty question set appends exactly
the record `mkRecord s f now date`, and loading that record back yields a
session whose questions equal the original ones with `selectedAnswers`,
`score` and `explanations` all empty/zero — the round-trip restores questions
but never the answers. -/
theorem save_load_roundtrip (s : State) (f : FileData) (now : Nat) (date : String)
    (hf : s.file = some f) (hq : s.questions ≠ []) :
    (handleSaveQuiz s now date).pdfList = s.pdfList ++ [mkRecord s f now date] ∧
    (handlePdfSelect (handleSaveQuiz s now date) (mkRecord s f now date)).questions
      = s.questions ∧
    (handlePdfSelect (handleSaveQuiz s now date) (mkRecord s f now date)).selectedAnswers
      = [] ∧
    (handlePdfSelect (handleSaveQuiz s now date) (mkRecord s f now date)).score = 0 ∧
    (handlePdfSelect (handleSaveQuiz s now date) (mkRecord s f now date)).explanations
      = [] := by
  have hlen : s.questions.length > 0 := List.length_pos.mpr hq
  refine ⟨?_, ?_, rfl, rfl, rfl⟩
  · simp [handleSaveQuiz, hf, hlen]
  · simp [handlePdfSelect, mkRecord]

theorem save_load_roundtrip_witness :
    (handleSaveQuiz readyState 5 "d").pdfList
      = readyState.pdfList ++ [mkRecord readyState pdfFile 5 "d"] ∧
    (handlePdfSelect (handleSaveQuiz readyState 5 "d")
        (mkRecord readyState pdfFile 5 "d")).questions = readyState.questions ∧
    (handlePdfSelect (handleSaveQuiz readyState 5 "d")
        (mkRecord readyState pdfFile 5 "d")).selectedAnswers = [] ∧
    (handlePdfSelect (handleSaveQuiz readyState 5 "d")
        (mkRecord readyState pdfFile 5 "d")).score = 0 ∧
    (handlePdfSelect (handleSaveQuiz readyState 5 "d")
        (mkRecord readyState pdfFile 5 "d")).explanations = [] :=
  save_load_roundtrip readyState pdfFile 5 "d" (by decide) (by decide)

/-- C7: on a saved-record collection whose ids are distinct, deleting an
absent id changes nothing, and deleting a present id removes exactly that one
record, keeping every other record unchanged and in order. -/
theorem delete_removes_exactly_one (s : State) (i : Nat)
    (hids : (s.pdfList.map SavedRecord.id).Nodup) :
    ((∀ r ∈ s.pdfList, r.id ≠ i) → handleDeletePdf s i = s) ∧
    (∀ r ∈ s.pdfList, r.id = i →
      ∃ l1 l2, s.pdfList = l1 ++ r :: l2 ∧ (handleDeletePdf s i).pdfList = l1 ++ l2) := by
  constructor
  · intro hall
    have hfix : s.pdfList.filter (fun item => item.id != i) = s.pdfList :=
      List.filter_eq_self.mpr (fun r hr => by simpa using hall r hr)
    simp [handleDeletePdf, hfix]
  · intro r hr hid
    rcases List.append_of_mem hr with ⟨l1, l2, hdec⟩
    refine ⟨l1, l2, hdec, ?_⟩
    have hids' : ((l1 ++ r :: l2).map SavedRecord.id).Nodup := hdec ▸ hids
    rw [List.map_append, List.map_cons] at hids'
    have hmid := List.nodup_middle.mp hids'
    have hnotin : r.id ∉ l1.map SavedRecord.id ++ l2.map SavedRecord.id :=
      (List.nodup_cons.mp hmid).1
    have hl1 : ∀ x ∈ l1, (x.id != i) = true := by
      intro x hx
      have : x.id ≠ r.id := by
        intro hxe
        exact hnotin (List.mem_append_left _ (hxe ▸ List.mem_map_of_mem SavedRecord.id hx))
      simpa [hid] using this
    have hl2 : ∀ x ∈ l2, (x.id != i) = true := by
      intro x hx
      have : x.id ≠ r.id := by
        intro hxe
        exact hnotin (List.mem_append_right _ (hxe ▸ List.mem_map_of_mem SavedRecord.id hx))
      simpa [hid] using this
    simp [handleDeletePdf, hdec, List.filter_append, List.filter_cons, hid,
      List.filter_eq_self.mpr hl1, List.filter_eq_self.mpr hl2]

theorem delete_removes_exactly_one_witness :
    ((∀ r ∈ ({ initState [] with
        pdfList := [mkRecord readyState pdfFile 1 "d", mkRecord readyState pdfFile 2 "d"]
      } : State).pdfList, r.id ≠ 1) →
      handleDeletePdf { initState [] with
        pdfList := [mkRecord readyState pdfFile 1 "d", mkRecord readyState pdfFile 2 "d"] } 1
        = { initState [] with
            pdfList := [mkRecord readyState pdfFile 1 "d", mkRecord readyState pdfFile 2 "d"] }) ∧
    (∀ r ∈ ({ initState [] with
        pdfList := [mkRecord readyState pdfFile 1 "d", mkRecord readyState pdfFile 2 "d"]
      } : State).pdfList, r.id = 1 →
      ∃ l1 l2,
        ({ initState [] with
          pdfList := [mkRecord readyState pdfFile 1 "d", mkRecord readyState pdfFile 2 "d"]
        } : State).pdfList = l1 ++ r :: l2 ∧
        (handleDeletePdf { initState [] with
          pdfList := [mkRecord readyState pdfFile 1 "d", mkRecord readyState pdfFile 2 "d"] } 1
        ).pdfList = l1 ++ l2) :=
  delete_removes_exactly_one
    { initState [] with
      pdfList := [mkRecord readyState pdfFile 1 "d", mkRecord readyState pdfFile 2 "d"] }
    1 (by decide)

/-- C9 counterexample: submitting a non-PDF file is not "only a validation
error": besides setting the error message, the handler also clears the
currently selected file (`setFile(null)`, line 82).  From `sPrior` (which has
a PDF selected) the result differs from `sPrior` with just the error set, and
the `file` field has changed. -/
theorem reject_nonpdf_clears_file :
    handleFileChange sPrior (some txtFile) ≠
      { sPrior with error := some "Please select a valid PDF file" } ∧
    (handleFileChange sPrior (some txtFile)).file ≠ sPrior.file := by
  decide

/-- C9 amended: submitting a file whose declared media type is not PDF is
rejected before any processing: `questions`, `loading`, `selectedAnswers`,
`score`, `explanations` and `pdfList` keep their pre-submission values, and
the effects are a user-visible validation error plus clearing the selected
file; the drop path behaves the same with its own message. -/
theorem reject_nonpdf_keeps_session (s : State) (fd : FileData)
    (h : fd.ftype ≠ "application/pdf") :
    (handleFileChange s (some fd)).questions = s.questions ∧
    (handleFileChange s (some fd)).loading = s.loading ∧
    (handleFileChange s (some fd)).selectedAnswers = s.selectedAnswers ∧
    (handleFileChange s (some fd)).score = s.score ∧
    (handleFileChange s (some fd)).explanations = s.explanations ∧
    (handleFileChange s (some fd)).pdfList = s.pdfList ∧
    (handleFileChange s (some fd)).error = some "Please select a valid PDF file" ∧
    (handleFileChange s (some fd)).file = none ∧
    (handleDrop s (some fd)).questions = s.questions ∧
    (handleDrop s (some fd)).loading = s.loading ∧
    (handleDrop s (some fd)).error = some "Please drop a valid PDF file" ∧
    (handleDrop s (some fd)).file = none := by
  simp [handleFileChange, handleDrop, h]

theorem reject_nonpdf_keeps_session_witness :
    (handleFileChange sPrior (some txtFile)).questions = sPrior.questions ∧
    (handleFileChange sPrior (some txtFile)).loading = sPrior.loading ∧
    (handleFileChange sPrior (some txtFile)).selectedAnswers = sPrior.selectedAnswers ∧
    (handleFileChange sPrior (some txtFile)).score = sPrior.score ∧
    (handleFileChange sPrior (some txtFile)).explanations = sPrior.explanations ∧
    (handleFileChange sPrior (some txtFile)).pdfList = sPrior.pdfList ∧
    (handleFileChange sPrior (some txtFile)).error = some "Please select a valid PDF file" ∧
    (handleFileChange sPrior (some txtFile)).file = none ∧
    (handleDrop sPrior (some txtFile)).questions = sPrior.questions ∧
    (handleDrop sPrior (some txtFile)).loading = sPrior.loading ∧
    (handleDrop sPrior (some txtFile)).error = some "Please drop a valid PDF file" ∧
    (handleDrop sPrior (some txtFile)).file = none :=
  reject_nonpdf_keeps_session sPrior txtFile (by decide)

/-- C10: `clearAll` discards the live session (file, questions, answers,
score, error, explanations) and also empties `pdfList`; the persistence
effect then removes the whole saved-quiz collection from the store — clearing
the session deletes every persisted record. -/
theorem clearAll_deletes_saved_records (s : State) :
    (clearAll s).file = none ∧
    (clearAll s).questions = [] ∧
    (clearAll s).selectedAnswers = [] ∧
    (clearAll s).score = 0 ∧
    (clearAll s).error = none ∧
    (clearAll s).explanations = [] ∧
    (clearAll s).pdfList = [] ∧
    persistPdfList (clearAll s).pdfList = none := by
  simp [clearAll, persistPdfList]
